import Mathlib

/-!
Shallow embedding of the dairy entry application (src/nnnn/dairy_app.py).

Modelling conventions:
* SQLite REAL columns and Python floats are modelled as rationals.
* The records table is a list in rowid (insertion) order together with the
  AUTOINCREMENT counter; the first assigned rowid is 1 and ids are never
  reused after deletion, as AUTOINCREMENT guarantees.
* Python string formatting with two decimal places is modelled by decimal
  rounding (half to even) of the rational value, computed on the numerator
  and denominator so that concrete instances evaluate by kernel reduction.
* The PDF document is modelled by its textual cell contents; colours, fonts
  and cell widths carry no information relevant to any claim.
-/

/-- One row of the records table:
(id, name, date, shift, mound, kg, rate). -/
structure Record where
  id : Nat
  name : String
  date : String
  shift : String
  mound : ℚ
  kg : ℚ
  rate : ℚ
  deriving DecidableEq, Repr

/-- The state of the SQLite database: the rows in rowid (insertion) order,
plus the AUTOINCREMENT counter holding the next id to assign. -/
structure Store where
  nextId : Nat
  records : List Record
  deriving DecidableEq, Repr

/-- A freshly created table: no rows, first AUTOINCREMENT id is 1. -/
def emptyStore : Store := ⟨1, []⟩

/-- DairyDB.add_record: INSERT INTO records (name, date, shift, mound, kg, rate)
VALUES (?, ?, ?, ?, ?, ?). SQLite assigns the next AUTOINCREMENT id to the new
row. The Python method has no return statement, so its value is None; the
second component of the result is that returned value. -/
def add_record (s : Store) (name date shift : String) (mound kg rate : ℚ) :
    Store × Option Nat :=
  ({ nextId := s.nextId + 1
   , records := s.records ++ [⟨s.nextId, name, date, shift, mound, kg, rate⟩] },
   none)

/-- Date comparison used by ORDER BY date on the TEXT column: lexicographic
order on the stored YYYY-MM-DD strings. -/
def dateLe (a b : Record) : Prop := a.date ≤ b.date

instance : DecidableRel dateLe :=
  fun a b => inferInstanceAs (Decidable (a.date ≤ b.date))

instance : IsTotal Record dateLe := ⟨fun a b => le_total a.date b.date⟩

instance : IsTrans Record dateLe := ⟨fun _ _ _ h h2 => le_trans h h2⟩

/-- DairyDB.get_all_records: SELECT * FROM records WHERE name = ? ORDER BY date.
The table is scanned in rowid (insertion) order and the rows are sorted by the
date column with a stable sort, so rows with equal dates stay in rowid order. -/
def get_all_records (s : Store) (name : String) : List Record :=
  List.insertionSort dateLe (s.records.filter (fun r => decide (r.name = name)))

/-- DairyDB.delete_record: DELETE FROM records WHERE id = ?. -/
def delete_record (s : Store) (rid : Nat) : Store :=
  { s with records := s.records.filter (fun r => decide (r.id ≠ rid)) }

/-- Round the fraction num / den (den positive) to the nearest integer,
halves to the nearest even integer, mirroring the rounding of two-decimal
string formatting. -/
def roundHalfEven (num den : ℤ) : ℤ :=
  let f := Int.fdiv num den
  let r := num - f * den
  if 2 * r < den then f
  else if den < 2 * r then f + 1
  else if f % 2 = 0 then f else f + 1

/-- Left-pad the fractional part to two digits. -/
def pad2 (n : Nat) : String :=
  if n < 10 then "0" ++ toString n else toString n

/-- Two-decimal formatting of a rational, as in Python percent-.2f style
format strings: round q * 100 to an integer, then print it with a decimal
point before the last two digits. -/
def fmt2 (q : ℚ) : String :=
  let n : ℤ := roundHalfEven (q.num * 100) (q.den : ℤ)
  let sign := if n < 0 then "-" else ""
  sign ++ toString (n.natAbs / 100) ++ "." ++ pad2 (n.natAbs % 100)

/-- The six cell texts of one table row of the exported document. -/
structure RowCells where
  dateCell : String
  shiftCell : String
  moundCell : String
  kgCell : String
  rateCell : String
  totalCell : String
  deriving DecidableEq, Repr

/-- The body of the per-record loop in export_pdf: computes
total = mound * rate if rate else 0 and renders the six cells, emitting
"N/A" for rate and total when rate is falsy (that is, zero). -/
def renderRow (r : Record) : RowCells :=
  let total : ℚ := if r.rate ≠ 0 then r.mound * r.rate else 0
  { dateCell := r.date
  , shiftCell := r.shift
  , moundCell := fmt2 r.mound
  , kgCell := fmt2 r.kg
  , rateCell := if r.rate ≠ 0 then fmt2 r.rate else "N/A"
  , totalCell := if r.rate ≠ 0 then fmt2 total else "N/A" }

/-- The running totals accumulated by the export loop: total_mound and
total_kg both start at 0 and every record contributes its mound and kg. -/
def reportTotals (records : List Record) : ℚ × ℚ :=
  records.foldl (fun t r => (t.1 + r.mound, t.2 + r.kg)) ((0 : ℚ), (0 : ℚ))

/-- The first summary line written after the table. -/
def totalMoundLine (records : List Record) : String :=
  "Total Mound: " ++ fmt2 (reportTotals records).1

/-- The second summary line written after the table. -/
def totalKgLine (records : List Record) : String :=
  "Total Kg: " ++ fmt2 (reportTotals records).2

example : fmt2 0 = "0.00" := by decide
example : fmt2 (mkRat 41 2) = "20.50" := by decide
example : fmt2 (mkRat 205 2) = "102.50" := by decide
example : fmt2 (mkRat 1350 1) = "1350.00" := by decide

/-- Python str.replace with the single-character pattern " ": every space
character (and only spaces) is replaced by an underscore. -/
def replaceSpaceUnderscore (s : String) : String :=
  String.mk (s.toList.map (fun c => if c = ' ' then '_' else c))

/-- The exported file name built by export_pdf: the format string
produces name ++ "_dairy.pdf" and then spaces are replaced by
underscores (the fixed suffix contains no space). -/
def file_name (name : String) : String :=
  replaceSpaceUnderscore (name ++ "_dairy.pdf")

/-- A path is absolute when its first character is a slash. -/
def isAbsolute (s : String) : Bool :=
  s.toList.head? = some '/'

/-- os.path.join on POSIX: if the second component is absolute it is
returned as is, otherwise the components are joined with a slash. -/
def ospath_join (a b : String) : String :=
  if isAbsolute b then b else a ++ "/" ++ b

/-- The target path of export_pdf: os.path.join("exports", file_name). -/
def file_path (name : String) : String :=
  ospath_join "exports" (file_name name)

/-- The specification's wording for the export file name ("the customer name
with whitespace replaced by underscores, followed by the suffix
_dairy.pdf"), stated for comparison with the file name the code builds. -/
def specFileNameWhitespace (name : String) : String :=
  String.mk (name.toList.map (fun c => if c.isWhitespace then '_' else c))
    ++ "_dairy.pdf"

/-- One table row of the document as a line of cell texts. -/
def pdfRowLine (r : Record) : String :=
  let c := renderRow r
  c.dateCell ++ " | " ++ c.shiftCell ++ " | " ++ c.moundCell ++ " | "
    ++ c.kgCell ++ " | " ++ c.rateCell ++ " | " ++ c.totalCell

/-- The full textual content of the document export_pdf builds in memory:
title, customer-name line, header row, one line per record in input order,
then the two summary lines. -/
def pdfContent (name : String) (records : List Record) : String :=
  "Malik Obaid Dairy Record\n"
    ++ "Customer Name: " ++ name ++ "\n"
    ++ "Date | Shift | Mound | Kg | Rate | Total\n"
    ++ String.join (records.map (fun r => pdfRowLine r ++ "\n"))
    ++ totalMoundLine records ++ "\n"
    ++ totalKgLine records ++ "\n"

/-- The file system visible to the program: each path maps to the content
stored there, if any. -/
def FS : Type := String → Option String

/-- The outcome of the single pdf.output(file_path) call: either the whole
document reaches the disk, or the call raises after some prefix of the
bytes has been written. The code calls pdf.output directly on the final
path; there is no temporary file and no rename. -/
inductive WriteOutcome
  | ok
  | failAfter (written : String)

/-- Writing content to a path: on success the path holds the full content
and the call reports success; on failure the path holds whatever was
written before the error and the call raises (reported as false). -/
def writeFileAt (fs : FS) (path content : String) : WriteOutcome → FS × Bool
  | .ok => (fun p => if p = path then some content else fs p, true)
  | .failAfter written => (fun p => if p = path then some written else fs p, false)

/-- export_pdf: builds the document, then writes it to
os.path.join("exports", file_name) with a single direct output call.
The whole body runs under try/except Exception: on success the function
returns the file path, on any failure it shows the error and returns
None. The write outcome stands for whether that single write raises. -/
def export_pdf (fs : FS) (name : String) (records : List Record)
    (w : WriteOutcome) : Option String × FS :=
  let path := file_path name
  match writeFileAt fs path (pdfContent name records) w with
  | (fs2, true) => (some path, fs2)
  | (fs2, false) => (none, fs2)

/-- Python truthiness of the optional path in the caller's
if path: ... download ... check: None and the empty string are falsy. -/
def pyTruthy (p : Option String) : Bool :=
  match p with
  | none => false
  | some s => s != ""

/-- The Export PDF button handler: path = export_pdf(name, records);
if path: offer the download. Returns whether a download is offered. -/
def exportHandlerOffers (fs : FS) (name : String) (records : List Record)
    (w : WriteOutcome) : Bool :=
  pyTruthy (export_pdf fs name records w).1

/-- A message shown by the UI through st.error or st.success. -/
inductive UIMsg
  | errorMsg (text : String)
  | successMsg (text : String)
  deriving DecidableEq, Repr

/-- The characters Python str.strip removes by default (the ASCII ones;
the rare non-ASCII unicode spaces are not used by any claim). -/
def pyIsSpace (c : Char) : Bool :=
  c == ' ' || c == '\t' || c == '\n' || c == '\r' || c == '\x0b' || c == '\x0c'

/-- Python str.strip(): drop leading and trailing whitespace. -/
def pyStrip (s : String) : String :=
  String.mk (((s.toList.dropWhile pyIsSpace).reverse.dropWhile pyIsSpace).reverse)

/-- The Add Entry button handler: if not name.strip() show the validation
error and do nothing else; otherwise call add_record and report success,
or report the storage error if the insert raises (storageOk models
whether the underlying sqlite insert succeeds). -/
def addEntryHandler (s : Store) (storageOk : Bool) (name date shift : String)
    (mound kg rate : ℚ) : Store × UIMsg :=
  if pyStrip name = "" then
    (s, .errorMsg "Please enter a customer name.")
  else if storageOk then
    ((add_record s name date shift mound kg rate).1,
      .successMsg "Record added successfully.")
  else
    (s, .errorMsg "Failed to add record.")

example : file_name "Malik Obaid" = "Malik_Obaid_dairy.pdf" := by decide
example : file_path "Ali" = "exports/Ali_dairy.pdf" := by decide
example : pyStrip "  \t " = "" := by decide
example : pyStrip " Ali " = "Ali" := by decide

/-- The first row of the worked scenario of the specification: rate 0. -/
def rec1 : Record := ⟨1, "Ali", "2024-05-01", "Morning", mkRat 10 1, mkRat 900 1, 0⟩

/-- The second row of the worked scenario: rate 20.50. -/
def rec2 : Record := ⟨2, "Ali", "2024-05-01", "Evening", mkRat 5 1, mkRat 450 1, mkRat 41 2⟩

/-- A concrete store holding the two scenario rows. -/
def store1 : Store := ⟨3, [rec1, rec2]⟩

/-- An empty file system. -/
def fs0 : FS := fun _ => none

/-- Folding the export loop body over a list adds the column sums to the
accumulator. -/
theorem reportTotals_foldl (records : List Record) (a b : ℚ) :
    records.foldl (fun t r => (t.1 + r.mound, t.2 + r.kg)) (a, b)
      = (a + (records.map Record.mound).sum, b + (records.map Record.kg).sum) := by
  induction records generalizing a b with
  | nil => simp
  | cons r rs ih => simp [ih, add_assoc]

/-- The loop totals are exactly the column sums. -/
theorem reportTotals_eq_sum (records : List Record) :
    reportTotals records
      = ((records.map Record.mound).sum, (records.map Record.kg).sum) := by
  rw [reportTotals, reportTotals_foldl]
  simp

/-- C1 counterexample: adding to a fresh store creates the single record
with id 1, yet the add operation's returned value is None, not that id
(the Python method has no return statement). -/
theorem add_record_returns_no_id :
    (add_record emptyStore "Ali" "2024-05-01" "Morning" (mkRat 10 1)
        (mkRat 900 1) 0).1.records.map Record.id = [1] ∧
    (add_record emptyStore "Ali" "2024-05-01" "Morning" (mkRat 10 1)
        (mkRat 900 1) 0).2 ≠ some 1 :=
  ⟨rfl, by decide⟩

/-- C1 (amended): the add operation inserts exactly one new Record, carrying
the submitted field values and the next AUTOINCREMENT id, which is fresh
whenever all existing ids are below the counter; the operation itself
returns no value. -/
theorem add_record_inserts_one (s : Store) (name date shift : String)
    (mound kg rate : ℚ) :
    (add_record s name date shift mound kg rate).1.records
        = s.records ++ [⟨s.nextId, name, date, shift, mound, kg, rate⟩] ∧
    (add_record s name date shift mound kg rate).1.nextId = s.nextId + 1 ∧
    (add_record s name date shift mound kg rate).2 = none ∧
    ((∀ r ∈ s.records, r.id < s.nextId) →
      ∀ r ∈ s.records, r.id ≠ s.nextId) :=
  ⟨rfl, rfl, rfl, fun h r hr => Nat.ne_of_lt (h r hr)⟩

/-- C1 witness: in the concrete two-row store every id is below the counter,
and the record rec1 keeps an id different from the id assigned next. -/
theorem add_record_inserts_one_witness :
    rec1 ∈ store1.records ∧ rec1.id ≠ store1.nextId :=
  ⟨by decide,
   (add_record_inserts_one store1 "Ali" "2024-05-02" "Morning" (mkRat 10 1)
      (mkRat 900 1) 0).2.2.2 (by decide) rec1 (by decide)⟩

/-- C2: in every rendered row, a zero rate yields the literal "N/A" in both
the Rate and the Total columns, and a positive rate yields the rate and
the product mound * rate, each formatted to two decimal places. -/
theorem render_row_rate_total (r : Record) :
    (r.rate = 0 → (renderRow r).rateCell = "N/A"
      ∧ (renderRow r).totalCell = "N/A") ∧
    (0 < r.rate → (renderRow r).rateCell = fmt2 r.rate
      ∧ (renderRow r).totalCell = fmt2 (r.mound * r.rate)) := by
  constructor
  · intro h
    simp [renderRow, h]
  · intro h
    simp [renderRow, h.ne']

/-- C2 witness: the scenario rows, one with rate 0 and one with rate 20.50,
exercise both branches. -/
theorem render_row_rate_total_witness :
    (rec1.rate = 0 ∧ (renderRow rec1).rateCell = "N/A"
      ∧ (renderRow rec1).totalCell = "N/A") ∧
    (0 < rec2.rate ∧ (renderRow rec2).rateCell = fmt2 rec2.rate
      ∧ (renderRow rec2).totalCell = fmt2 (rec2.mound * rec2.rate)) :=
  ⟨⟨rfl, (render_row_rate_total rec1).1 rfl⟩,
   ⟨by decide, (render_row_rate_total rec2).2 (by decide)⟩⟩

/-- C3: the two summary lines after the table are the arithmetic sums of
all mound values and of all kg values over exactly the input list, each
formatted to two decimal places; every row contributes, including rows
whose rate is zero. -/
theorem report_summary_lines_are_sums (records : List Record) :
    totalMoundLine records
        = "Total Mound: " ++ fmt2 ((records.map Record.mound).sum) ∧
    totalKgLine records
        = "Total Kg: " ++ fmt2 ((records.map Record.kg).sum) := by
  rw [totalMoundLine, totalKgLine, reportTotals_eq_sum]
  exact ⟨rfl, rfl⟩

/-- A string all of whose characters are Python whitespace strips to the
empty string. -/
theorem pyStrip_eq_empty {name : String}
    (h : name.toList.all pyIsSpace = true) : pyStrip name = "" := by
  unfold pyStrip
  have h1 : name.toList.dropWhile pyIsSpace = [] :=
    List.dropWhile_eq_nil_iff.mpr (List.all_eq_true.mp h)
  rw [h1]
  rfl

/-- C5: when the submitted name is empty or whitespace only, the Add Entry
handler reports the validation error, leaves the store exactly as it was
(so the add operation was not invoked), and every customer's record list
reads the same before and after. -/
theorem add_blank_name_rejected (s : Store) (storageOk : Bool)
    (name date shift : String) (mound kg rate : ℚ)
    (h : name.toList.all pyIsSpace = true) :
    addEntryHandler s storageOk name date shift mound kg rate
        = (s, .errorMsg "Please enter a customer name.") ∧
    ∀ c, get_all_records
        (addEntryHandler s storageOk name date shift mound kg rate).1 c
        = get_all_records s c := by
  have hs := pyStrip_eq_empty h
  refine ⟨by simp [addEntryHandler, hs], fun c => by simp [addEntryHandler, hs]⟩

/-- C5 witness: a whitespace-only name on the concrete store triggers the
validation error and leaves the store and the listing for "Ali" unchanged. -/
theorem add_blank_name_rejected_witness :
    (" \t ".toList.all pyIsSpace = true) ∧
    addEntryHandler store1 true " \t " "2024-05-02" "Morning" (mkRat 3 1)
        (mkRat 270 1) 0
      = (store1, .errorMsg "Please enter a customer name.") ∧
    get_all_records (addEntryHandler store1 true " \t " "2024-05-02" "Morning"
        (mkRat 3 1) (mkRat 270 1) 0).1 "Ali"
      = get_all_records store1 "Ali" :=
  ⟨by decide,
   (add_blank_name_rejected store1 true " \t " "2024-05-02" "Morning"
      (mkRat 3 1) (mkRat 270 1) 0 (by decide)).1,
   (add_blank_name_rejected store1 true " \t " "2024-05-02" "Morning"
      (mkRat 3 1) (mkRat 270 1) 0 (by decide)).2 "Ali"⟩

/-- C6: deleting by id removes exactly the rows carrying that id: no
returned row carries the id, the remaining rows are the original rows in
their original order, every row with a different id survives, and when no
row carries the id the store is completely unchanged and no error arises
(the operation is total). -/
theorem delete_by_id_spec (s : Store) (rid : Nat) :
    (∀ r ∈ (delete_record s rid).records, r.id ≠ rid) ∧
    (delete_record s rid).records.Sublist s.records ∧
    (∀ r ∈ s.records, r.id ≠ rid → r ∈ (delete_record s rid).records) ∧
    ((∀ r ∈ s.records, r.id ≠ rid) → delete_record s rid = s) := by
  refine ⟨?_, List.filter_sublist _, ?_, ?_⟩
  · intro r hr
    simpa using (List.mem_filter.mp hr).2
  · intro r hr h
    exact List.mem_filter.mpr ⟨hr, by simpa using h⟩
  · intro h
    have hf : s.records.filter (fun r => decide (r.id ≠ rid)) = s.records :=
      List.filter_eq_self.mpr (fun a ha => by simpa using h a ha)
    cases s
    simpa [delete_record] using hf

/-- C6 witness: deleting the absent id 9999 leaves the concrete store
untouched, and deleting id 1 keeps the row with id 2. -/
theorem delete_by_id_spec_witness :
    delete_record store1 9999 = store1 ∧
    rec2 ∈ (delete_record store1 1).records :=
  ⟨(delete_by_id_spec store1 9999).2.2.2 (by decide),
   (delete_by_id_spec store1 1).2.2.1 rec2 (by decide) (by decide)⟩

/-- Inserting a record into a list in date order commutes with restricting
to one date value: the records skipped before the insertion point have
strictly smaller dates, so they never carry the inserted record's date. -/
theorem filter_orderedInsert_date (d : String) (a : Record) (l : List Record) :
    (List.orderedInsert dateLe a l).filter (fun r => decide (r.date = d))
      = if a.date = d
        then a :: l.filter (fun r => decide (r.date = d))
        else l.filter (fun r => decide (r.date = d)) := by
  induction l with
  | nil =>
    by_cases had : a.date = d <;>
      simp [List.orderedInsert, List.filter_cons, had]
  | cons b bs ih =>
    rw [List.orderedInsert]
    by_cases hab : dateLe a b
    · rw [if_pos hab]
      by_cases had : a.date = d <;> simp [List.filter_cons, had]
    · rw [if_neg hab]
      have hba : b.date < a.date := lt_of_not_le hab
      by_cases had : a.date = d
      · have hbd : ¬ b.date = d := had ▸ ne_of_lt hba
        simp [List.filter_cons, ih, had, hbd]
      · by_cases hbd : b.date = d <;> simp [List.filter_cons, ih, had, hbd]

/-- Stability of the sort: restricting the sorted list to the records of
any one date gives exactly the records of that date in input order. -/
theorem filter_insertionSort_date (d : String) (l : List Record) :
    (List.insertionSort dateLe l).filter (fun r => decide (r.date = d))
      = l.filter (fun r => decide (r.date = d)) := by
  induction l with
  | nil => rfl
  | cons a l ih =>
    rw [List.insertionSort, filter_orderedInsert_date]
    by_cases had : a.date = d <;> simp [List.filter_cons, had, ih]

/-- C4: for every customer and store state the returned list is sorted
non-decreasing by date, and for each date value the returned records of
that date are exactly the stored records of that customer and date in
insertion (rowid) order, so ties keep insertion order. -/
theorem get_all_records_sorted_stable (s : Store) (name : String) :
    List.Sorted dateLe (get_all_records s name) ∧
    ∀ d, (get_all_records s name).filter (fun r => decide (r.date = d))
        = (s.records.filter (fun r => decide (r.name = name))).filter
            (fun r => decide (r.date = d)) :=
  ⟨List.sorted_insertionSort dateLe _, fun d => filter_insertionSort_date d _⟩

/-- C7 counterexample, two failures at concrete names. First, for the name
containing a tab character the code keeps the tab in the file name, while
the claimed whitespace-to-underscore normalization would replace it; only
the space character is replaced. Second, a name starting with a slash
derives an absolute file name, so os.path.join discards the exports
directory and the document is not written under it: the path does not
begin with the eight characters of exports followed by a slash. -/
theorem export_path_not_as_claimed :
    file_name "a\tb" ≠ specFileNameWhitespace "a\tb" ∧
    file_name "a\tb" = "a\tb_dairy.pdf" ∧
    specFileNameWhitespace "a\tb" = "a_b_dairy.pdf" ∧
    file_path "/x" = "/x_dairy.pdf" ∧
    (file_path "/x").toList.take 8 ≠ ("exports/").toList :=
  ⟨by decide, by decide, by decide, by decide, by decide⟩

/-- Replacing spaces by underscores distributes over appending. -/
theorem replaceSpaceUnderscore_append (a b : String) :
    replaceSpaceUnderscore (a ++ b)
      = replaceSpaceUnderscore a ++ replaceSpaceUnderscore b := by
  apply String.ext
  simp [replaceSpaceUnderscore, String.toList, String.data_append]

/-- C7 (amended): whenever the produced file name is not an absolute path,
a successful export writes to the deterministic path made of the fixed
directory exports and the customer name with each space character (and
only spaces, not all whitespace) replaced by an underscore, followed by
the suffix _dairy.pdf; identical names give identical paths. -/
theorem export_path_space_replaced (name : String)
    (h : isAbsolute (file_name name) = false) :
    file_path name = "exports/" ++ replaceSpaceUnderscore name ++ "_dairy.pdf" := by
  rw [file_path, ospath_join, if_neg (by simp [h]), file_name,
    replaceSpaceUnderscore_append]
  have h2 : replaceSpaceUnderscore "_dairy.pdf" = "_dairy.pdf" := by decide
  rw [h2]
  apply String.ext
  simp [String.data_append]

/-- C7 witness: the scenario customer name with an inner space maps to the
expected concrete path. -/
theorem export_path_space_replaced_witness :
    (isAbsolute (file_name "Malik Obaid") = false) ∧
    file_path "Malik Obaid" = "exports/Malik_Obaid_dairy.pdf" :=
  ⟨by decide, by
    rw [export_path_space_replaced "Malik Obaid" (by decide)]
    decide⟩

/-- The target path of an export is never the empty string. -/
theorem file_path_ne_empty (name : String) : file_path name ≠ "" := by
  rw [file_path, ospath_join]
  by_cases h : isAbsolute (file_name name)
  · rw [if_pos h]
    intro he
    rw [he] at h
    exact absurd h (by decide)
  · rw [if_neg h]
    intro he
    have hl := congrArg String.length he
    rw [String.length_append, String.length_append] at hl
    have h7 : ("exports" : String).length = 7 := rfl
    have h1 : ("/" : String).length = 1 := rfl
    have h0 : ("" : String).length = 0 := rfl
    omega

/-- C8 counterexample: when the single direct write to the target path
fails after a prefix of the bytes, the generator does return None (no
download is offered), yet the target path is left holding that prefix,
which is not the complete document: the write is not all-or-nothing. -/
theorem export_pdf_partial_file_left :
    (export_pdf fs0 "Ali" [] (.failAfter "Malik")).1 = none ∧
    (export_pdf fs0 "Ali" [] (.failAfter "Malik")).2 (file_path "Ali")
      = some "Malik" ∧
    "Malik" ≠ pdfContent "Ali" [] :=
  ⟨rfl, by decide, by decide⟩

/-- C8 (amended): on a failing write the generator signals the error by
returning None and the export action offers no download; but the document
is written directly to the target path with no temporary file or rename,
so the bytes written before the failure remain at the target path. -/
theorem export_pdf_failure_leaves_written_bytes (fs : FS) (name : String)
    (records : List Record) (written : String) :
    (export_pdf fs name records (.failAfter written)).1 = none ∧
    exportHandlerOffers fs name records (.failAfter written) = false ∧
    (export_pdf fs name records (.failAfter written)).2 (file_path name)
      = some written := by
  refine ⟨rfl, rfl, ?_⟩
  show (if file_path name = file_path name then some written
        else fs (file_path name)) = some written
  rw [if_pos rfl]

/-- C10: the generator is total over every write outcome: its result is
either None (on failure, never an exception) or the target path, and the
caller offers a download exactly when a non-None path came back. -/
theorem export_pdf_never_raises (fs : FS) (name : String)
    (records : List Record) (w : WriteOutcome) :
    ((export_pdf fs name records w).1 = none ∨
      (export_pdf fs name records w).1 = some (file_path name)) ∧
    (exportHandlerOffers fs name records w = true ↔
      (export_pdf fs name records w).1 ≠ none) := by
  cases w with
  | ok =>
    refine ⟨Or.inr rfl, ?_⟩
    show (file_path name != "") = true ↔ some (file_path name) ≠ none
    simp [bne_iff_ne, file_path_ne_empty name]
  | failAfter written =>
    refine ⟨Or.inl rfl, ?_⟩
    show false = true ↔ (none : Option String) ≠ none
    simp
